import Mathlib

/-!
Verification of the influxdb_cpp client library (`src/include/influxdb.hpp`)
against its natural-language specification.

The C++ code is shallowly embedded: the `metric` class becomes the `Metric`
structure with pure constructor/mutator functions; the `influxdb_client`
class becomes the `ClientState` structure, with curl's behaviour (which
transfers complete during a `curl_multi_perform` step, whether easy-handle
creation and registration succeed) supplied as explicit environment
parameters.  C++ exceptions are modelled by an `Option String` error
component returned next to the post-state (the object retains the
mutations made before the throw, as in C++).  `std::chrono` time points
are modelled as nanosecond counts since the Unix epoch (the libstdc++
`system_clock` representation), so `duration_cast` truncation is `Nat`
division.
-/

namespace Influxdb

/-- The `enum class precision` of `influxdb.hpp` (lines 26-33). -/
inductive Precision where
  | nano
  | micro
  | milli
  | second
  | minute
  | hour
deriving DecidableEq

/-- The `metric` class state: measurement name, the already-formatted
`key=value` tag strings, the already-formatted `key=value` field strings
(both `std::vector<std::string>`, push_back order preserved), and the
`system_clock` construction instant in nanoseconds since the epoch. -/
structure Metric where
  measurement : String
  tags : List String
  fields : List String
  timestamp : Nat
deriving DecidableEq

/-- The `metric(const std::string&)` constructor (lines 37-40): stores the
measurement name and captures `system_clock::now()` once; `now` is the
ambient wall clock at the moment of construction. -/
def mk_metric (measurement : String) (now : Nat) : Metric :=
  { measurement := measurement, tags := [], fields := [], timestamp := now }

/-- Member `metric::add_tag` (lines 42-46): pushes `fmt::format("{}={}", key, val)`.
The fmt rendering of the generic value `val` is passed in as a string. -/
def Metric.add_tag (m : Metric) (key val : String) : Metric :=
  { m with tags := m.tags ++ [key ++ "=" ++ val] }

/-- The generic `metric::add_field` overload (lines 48-52): pushes
`fmt::format("{}={}", key, val)` with the fmt rendering of `val` passed
in as a string (numeric/boolean values render unquoted). -/
def Metric.add_field (m : Metric) (key val : String) : Metric :=
  { m with fields := m.fields ++ [key ++ "=" ++ val] }

/-- The replacement `std::regex_replace(val, quote_re, "\\\"")` with `quote_re = "\""`
(lines 40, 55, 60): every `"` character is replaced by the two-character
sequence `\"`; every other character is copied through unchanged. -/
def escapeQuotes (s : String) : String :=
  String.mk (s.data.flatMap fun c => if c = Char.ofNat 34 then [Char.ofNat 92, Char.ofNat 34] else [c])

/-- The string overloads of `metric::add_field` (lines 54-62): push
`fmt::format("{}=\"{}\"", key, regex_replace(val, quote_re, "\\\""))`,
i.e. the value wrapped in double quotes with embedded quotes escaped. -/
def Metric.add_field_str (m : Metric) (key val : String) : Metric :=
  { m with fields := m.fields ++ [key ++ "=\"" ++ escapeQuotes val ++ "\""] }

/-- Member `metric::get_timestamp` (lines 65-84): `duration_cast` of the stored
construction instant to the requested unit; integer truncation of the
nanosecond count. -/
def Metric.get_timestamp (m : Metric) (p : Precision) : Nat :=
  match p with
  | Precision.nano => m.timestamp
  | Precision.micro => m.timestamp / 1000
  | Precision.milli => m.timestamp / 1000000
  | Precision.second => m.timestamp / 1000000000
  | Precision.minute => m.timestamp / 60000000000
  | Precision.hour => m.timestamp / 3600000000000

/-- One loop of `get_line`: `out.write(",{}", x)` for each element, i.e.
every element of `xs` is written preceded by `sep`. -/
def prependEach (sep : String) : List String → String
  | [] => ""
  | x :: xs => sep ++ x ++ prependEach sep xs

/-- Member `metric::get_line` (lines 86-105): writes the measurement, a comma
before each tag, then `" " ++ *fields.begin()` followed by a comma before
each remaining field, then a space, the timestamp and a newline.
When `fields` is empty the source dereferences `fields.begin()` — the end
iterator of an empty vector — which is undefined behaviour (a read past
the end); that case is modelled as `none`.  No error is raised by the
source there. -/
def Metric.get_line (m : Metric) (p : Precision) : Option String :=
  match m.fields with
  | [] => none
  | f :: rest =>
    some (m.measurement ++ prependEach "," m.tags
      ++ " " ++ f ++ prependEach "," rest
      ++ " " ++ toString (m.get_timestamp p) ++ "\n")

/-- Modelled from the spec (claim C1's wording, for refinement comparison
only): fields "separated by commas with no trailing comma". -/
def sep_join (sep : String) : List String → String
  | [] => ""
  | [x] => x
  | x :: y :: xs => x ++ sep ++ sep_join sep (y :: xs)

/-- Modelled from the spec (claim C1's wording, for refinement comparison
only): the line as the spec describes it — the measurement name, each tag
preceded by a comma, a single space, the fields separated by commas with
no trailing comma, a single space, the timestamp, a newline. -/
def line_spec (m : Metric) (p : Precision) : String :=
  m.measurement ++ prependEach "," m.tags
    ++ " " ++ sep_join "," m.fields
    ++ " " ++ toString (m.get_timestamp p) ++ "\n"

set_option linter.unusedVariables false in
/-- Member `metric::get_line` as a function with the ambient wall clock in
scope: the body is the translation of lines 86-105 with `ambient_now`
(the value `system_clock::now()` would return during the call) available
but never sampled — the source reads only the stored `timestamp` field. -/
def Metric.get_line_clocked (ambient_now : Nat) (m : Metric) (p : Precision) : Option String :=
  match m.fields with
  | [] => none
  | f :: rest =>
    some (m.measurement ++ prependEach "," m.tags
      ++ " " ++ f ++ prependEach "," rest
      ++ " " ++ toString (m.get_timestamp p) ++ "\n")

/-- A `CURLMSG_DONE` message of the completion queue read by
`curl_multi_info_read`: the easy handle it concerns, whether
`cmsg->data.result` was `CURLE_OK`, and the `curl_easy_strerror`
rendering of the result. -/
structure DoneMsg where
  handle : Nat
  ok : Bool
  errmsg : String
deriving DecidableEq

/-- Environment of one `write_metrics` call: whether `curl_easy_init`
returns a handle, whether `curl_multi_add_handle` returns `CURLM_OK`, and
the `curl_multi_strerror` text when it does not. -/
structure SubmitEnv where
  einit_ok : Bool
  add_ok : Bool
  add_err : String
deriving DecidableEq

/-- Environment of one `update` call: whether `curl_multi_perform`
returns `CURLM_OK`, the `curl_multi_strerror` text when it does not, and
which registered transfers finish during this perform step, each with its
success flag and `curl_easy_strerror` text. -/
structure PollEnv where
  perform_ok : Bool
  perform_err : String
  completions : List (Nat × Bool × String)
deriving DecidableEq

/-- The `influxdb_client` state (lines 126-255).  The curl multi handle is
modelled by its observable content: `active` are the registered easy
handles still in progress, `done_queue` the completion messages not yet
read by `curl_multi_info_read`, `released` the handles already passed to
`curl_multi_remove_handle` and `curl_easy_cleanup`, and `submitted`
records each request body handed to the multiplexer (the copied
`CURLOPT_COPYPOSTFIELDS` payloads, in submission order).  `next_handle`
generates fresh easy-handle identities. -/
structure ClientState where
  ts_precision : Precision
  max_buffer : Nat
  save_failures : Bool
  post_data : String
  failed_transfers : List String
  running_handles : Int
  prev_running_handles : Int
  active : List Nat
  done_queue : List DoneMsg
  released : List Nat
  submitted : List String
  next_handle : Nat
deriving DecidableEq

/-- The `influxdb_client` constructor (lines 128-140): stores precision,
buffer threshold (default 2048) and capture flag, starts with an empty
buffer and zero running handles.  (`post_data.reserve` only affects
capacity; the write URL carries no claim-relevant state.) -/
def init_client (p : Precision) (buffer_size : Nat := 2048) (save : Bool := false) : ClientState :=
  { ts_precision := p
    max_buffer := buffer_size
    save_failures := save
    post_data := ""
    failed_transfers := []
    running_handles := 0
    prev_running_handles := 0
    active := []
    done_queue := []
    released := []
    submitted := []
    next_handle := 0 }

/-- Member `format_write_url` (lines 210-239): appends `/write?db=`, the database
name, and the precision query code to the base URL. -/
def format_write_url (base_url db : String) (p : Precision) : String :=
  base_url ++ "/write?db=" ++ db ++
    (match p with
     | Precision.nano => "&precision=n"
     | Precision.micro => "&precision=u"
     | Precision.milli => "&precision=ms"
     | Precision.second => "&precision=s"
     | Precision.minute => "&precision=m"
     | Precision.hour => "&precision=h")

/-- Member `influxdb_client::write_metrics` (lines 182-200).  On `curl_easy_init`
failure it throws before touching any state.  Otherwise it increments
`running_handles` BEFORE `curl_multi_add_handle`; if registration fails it
throws there, leaving `post_data` uncleared and no handle registered; on
success the body is registered and `post_data` cleared.  The returned pair
is (object state when the call returns or throws, thrown message). -/
def write_metrics (env : SubmitEnv) (s : ClientState) : ClientState × Option String :=
  if env.einit_ok then
    let s1 := { s with running_handles := s.running_handles + 1
                       next_handle := s.next_handle + 1 }
    if env.add_ok then
      ({ s1 with active := s1.active ++ [s.next_handle]
                 submitted := s1.submitted ++ [s.post_data]
                 post_data := "" }, none)
    else
      (s1, some env.add_err)
  else
    (s, some "Failed to initialize curl easy handle")

/-- Member `influxdb_client::add_metric` (lines 175-180) after the line has been
obtained from `metric::get_line`: append the line to `post_data`, then
flush via `write_metrics` when `post_data.size() >= max_buffer`. -/
def add_line (env : SubmitEnv) (line : String) (s : ClientState) : ClientState × Option String :=
  let s1 := { s with post_data := s.post_data ++ line }
  if s1.max_buffer ≤ s1.post_data.utf8ByteSize then
    write_metrics env s1
  else
    (s1, none)

/-- Member `influxdb_client::add_metric` (lines 175-180): `m.get_line`, then
`add_line`.  `none` propagates the undefined behaviour of `get_line` on a
field-less metric. -/
def add_metric (env : SubmitEnv) (m : Metric) (s : ClientState) : Option (ClientState × Option String) :=
  (m.get_line s.ts_precision).map fun line => add_line env line s

/-- The completion messages `curl_multi_perform` moves to the queue during
this `update` call: the active handles the environment finishes, in
registration order, with their results. -/
def stepCompletions (env : PollEnv) (s : ClientState) : List DoneMsg :=
  s.active.filterMap fun h =>
    (env.completions.lookup h).map fun r => { handle := h, ok := r.1, errmsg := r.2 }

/-- The `do { cmsg = curl_multi_info_read(...); ... } while (cmsg != nullptr)`
loop of `update` (lines 158-171): for each `CURLMSG_DONE` message, record
the failure text when `save_failures` is set and the result was not OK,
then `curl_multi_remove_handle` and `curl_easy_cleanup` the handle. -/
def drain : List DoneMsg → ClientState → ClientState
  | [], s => s
  | msg :: rest, s =>
    let s2 := if s.save_failures && !msg.ok
              then { s with failed_transfers := s.failed_transfers ++ [msg.errmsg] }
              else s
    drain rest { s2 with released := s2.released ++ [msg.handle] }

/-- The first half of `update` (lines 148-150): save `prev_running_handles`,
then `curl_multi_perform` advances the multiplexer — the environment decides
which active transfers finish, their completion messages join the queue,
and `running_handles` is set to the number still in progress. -/
def perform_state (env : PollEnv) (s : ClientState) : ClientState :=
  let remaining := s.active.filter fun h => (env.completions.lookup h).isNone
  { s with prev_running_handles := s.running_handles
           active := remaining
           running_handles := (remaining.length : Int)
           done_queue := s.done_queue ++ stepCompletions env s }

/-- Member `influxdb_client::update` (lines 146-173): `perform_state`, throw if
`curl_multi_perform` did not return `CURLM_OK`, and when `running_handles`
dropped below its previous value drain the whole completion queue. -/
def update (env : PollEnv) (s : ClientState) : ClientState × Option String :=
  let s1 := perform_state env s
  if env.perform_ok = false then
    (s1, some env.perform_err)
  else if s1.running_handles < s.running_handles then
    (drain s1.done_queue { s1 with done_queue := [] }, none)
  else
    (s1, none)

/-- Member `influxdb_client::is_active` (lines 202-204): `running_handles > 0`. -/
def is_active (s : ClientState) : Bool :=
  s.running_handles > 0

/-- Member `influxdb_client::get_failures` (line 206). -/
def get_failures (s : ClientState) : List String :=
  s.failed_transfers

/-- Member `influxdb_client::clear_failures` (line 207): `failed_transfers.clear()`. -/
def clear_failures (s : ClientState) : ClientState :=
  { s with failed_transfers := [] }

/-- One public mutating call on the client. -/
inductive Op where
  | submit : SubmitEnv → Op
  | poll : PollEnv → Op
  | add : SubmitEnv → String → Op
  | clear : Op

/-- Effect of one public call on the client state (the post-state is kept
even when the call throws, as the C++ object outlives the exception). -/
def step : Op → ClientState → ClientState × Option String
  | Op.submit env, s => write_metrics env s
  | Op.poll env, s => update env s
  | Op.add env line, s => add_line env line s
  | Op.clear, s => (clear_failures s, none)

/-- The client states reachable from a freshly constructed client by any
sequence of public calls. -/
inductive Reachable : ClientState → Prop where
  | init : ∀ (p : Precision) (n : Nat) (b : Bool), Reachable (init_client p n b)
  | step : ∀ (s : ClientState) (op : Op), Reachable s → Reachable (step op s).1

/-! Helper lemmas: equations for the branches of `write_metrics`, `update`
and `drain`, and the invariants maintained by every public call. -/

theorem sep_join_eq (sep : String) : ∀ (f : String) (rest : List String),
    sep_join sep (f :: rest) = f ++ prependEach sep rest
  | f, [] => by simp [sep_join, prependEach]
  | f, y :: xs => by
    rw [sep_join, sep_join_eq sep y xs, prependEach]
    simp [String.append_assoc]

theorem drain_released (msgs : List DoneMsg) (s : ClientState) :
    (drain msgs s).released = s.released ++ msgs.map DoneMsg.handle := by
  induction msgs generalizing s with
  | nil => simp [drain]
  | cons msg rest ih =>
    rw [drain]
    split <;> simp [ih]

theorem drain_failed (msgs : List DoneMsg) (s : ClientState) :
    (drain msgs s).failed_transfers = s.failed_transfers ++
      (if s.save_failures then (msgs.filter fun m => !m.ok).map DoneMsg.errmsg else []) := by
  induction msgs generalizing s with
  | nil => simp [drain]
  | cons msg rest ih =>
    rw [drain]
    by_cases h : (s.save_failures && !msg.ok) = true
    · obtain ⟨hs, hok⟩ := by simpa using h
      simp [if_pos h, ih, hs, hok, List.filter_cons]
    · by_cases hs : s.save_failures = true
      · have hok : msg.ok = true := by
          cases hmo : msg.ok
          · simp [hs, hmo] at h
          · rfl
        simp [if_neg h, ih, hs, hok, List.filter_cons]
      · simp [if_neg h, ih, hs]

theorem drain_core (msgs : List DoneMsg) (s : ClientState) :
    (drain msgs s).done_queue = s.done_queue ∧
    (drain msgs s).running_handles = s.running_handles ∧
    (drain msgs s).save_failures = s.save_failures ∧
    (drain msgs s).active = s.active ∧
    (drain msgs s).post_data = s.post_data ∧
    (drain msgs s).submitted = s.submitted := by
  induction msgs generalizing s with
  | nil => simp [drain]
  | cons msg rest ih =>
    rw [drain]
    split <;> simp [ih]

theorem write_metrics_ok (env : SubmitEnv) (s : ClientState)
    (he : env.einit_ok = true) (ha : env.add_ok = true) :
    write_metrics env s =
      ({ s with running_handles := s.running_handles + 1
                next_handle := s.next_handle + 1
                active := s.active ++ [s.next_handle]
                submitted := s.submitted ++ [s.post_data]
                post_data := "" }, none) := by
  simp [write_metrics, he, ha]

theorem write_metrics_no_handle (env : SubmitEnv) (s : ClientState)
    (he : env.einit_ok = false) :
    write_metrics env s = (s, some "Failed to initialize curl easy handle") := by
  simp [write_metrics, he]

theorem write_metrics_reject (env : SubmitEnv) (s : ClientState)
    (he : env.einit_ok = true) (ha : env.add_ok = false) :
    write_metrics env s =
      ({ s with running_handles := s.running_handles + 1
                next_handle := s.next_handle + 1 }, some env.add_err) := by
  simp [write_metrics, he, ha]

theorem write_metrics_keeps_failures (env : SubmitEnv) (s : ClientState) :
    ((write_metrics env s).1).failed_transfers = s.failed_transfers ∧
    ((write_metrics env s).1).save_failures = s.save_failures := by
  rw [write_metrics]
  split
  · split <;> simp
  · simp

theorem update_eq_drain (env : PollEnv) (s : ClientState) (hp : env.perform_ok = true)
    (hlt : (perform_state env s).running_handles < s.running_handles) :
    update env s =
      (drain (perform_state env s).done_queue
        { perform_state env s with done_queue := [] }, none) := by
  simp [update, hp, hlt]

theorem update_eq_noop (env : PollEnv) (s : ClientState) (hp : env.perform_ok = true)
    (hge : ¬ (perform_state env s).running_handles < s.running_handles) :
    update env s = (perform_state env s, none) := by
  simp [update, hp, hge]

theorem update_eq_err (env : PollEnv) (s : ClientState) (hp : env.perform_ok = false) :
    update env s = (perform_state env s, some env.perform_err) := by
  simp [update, hp]

theorem perform_state_core (env : PollEnv) (s : ClientState) :
    (perform_state env s).running_handles =
      ((s.active.filter fun h => (env.completions.lookup h).isNone).length : Int) ∧
    (perform_state env s).done_queue = s.done_queue ++ stepCompletions env s ∧
    (perform_state env s).save_failures = s.save_failures ∧
    (perform_state env s).failed_transfers = s.failed_transfers ∧
    (perform_state env s).released = s.released := by
  simp [perform_state]

theorem update_keeps_save (env : PollEnv) (s : ClientState) :
    ((update env s).1).save_failures = s.save_failures := by
  by_cases hp : env.perform_ok = true
  · by_cases hlt : (perform_state env s).running_handles < s.running_handles
    · rw [update_eq_drain env s hp hlt]
      simp only
      rw [(drain_core _ _).2.2.1]
      simp [perform_state]
    · rw [update_eq_noop env s hp hlt]
      simp [perform_state]
  · rw [update_eq_err env s (by simpa using hp)]
    simp [perform_state]

theorem update_extends_failures (env : PollEnv) (s : ClientState) :
    ∃ t, ((update env s).1).failed_transfers = s.failed_transfers ++ t ∧
      (s.save_failures = false → t = []) := by
  by_cases hp : env.perform_ok = true
  · by_cases hlt : (perform_state env s).running_handles < s.running_handles
    · rw [update_eq_drain env s hp hlt]
      simp only
      rw [drain_failed]
      have h1 : ({ perform_state env s with done_queue := [] } : ClientState).failed_transfers
          = s.failed_transfers := by
        simp [perform_state]
      have h2 : ({ perform_state env s with done_queue := [] } : ClientState).save_failures
          = s.save_failures := by
        simp [perform_state]
      rw [h1, h2]
      refine ⟨_, rfl, ?_⟩
      intro hoff
      simp [hoff]
    · rw [update_eq_noop env s hp hlt]
      exact ⟨[], by simp [perform_state], fun _ => rfl⟩
  · rw [update_eq_err env s (by simpa using hp)]
    exact ⟨[], by simp [perform_state], fun _ => rfl⟩

theorem add_line_keeps_failures (env : SubmitEnv) (line : String) (s : ClientState) :
    ((add_line env line s).1).failed_transfers = s.failed_transfers ∧
    ((add_line env line s).1).save_failures = s.save_failures := by
  rw [add_line]
  split
  · exact write_metrics_keeps_failures env _
  · exact ⟨rfl, rfl⟩

theorem step_keeps_save (op : Op) (s : ClientState) :
    ((step op s).1).save_failures = s.save_failures := by
  cases op with
  | submit env => exact (write_metrics_keeps_failures env s).2
  | poll env => exact update_keeps_save env s
  | add env line => exact (add_line_keeps_failures env line s).2
  | clear => rfl

theorem nonneg_of_reachable : ∀ (s : ClientState), Reachable s → 0 ≤ s.running_handles := by
  intro s h
  induction h with
  | init p n b => simp [init_client]
  | step s op hs ih =>
    cases op with
    | submit env =>
      show 0 ≤ ((write_metrics env s).1).running_handles
      by_cases he : env.einit_ok = true
      · by_cases ha : env.add_ok = true
        · rw [write_metrics_ok env s he ha]
          simp only
          omega
        · rw [write_metrics_reject env s he (by simpa using ha)]
          simp only
          omega
      · rw [write_metrics_no_handle env s (by simpa using he)]
        exact ih
    | poll env =>
      show 0 ≤ ((update env s).1).running_handles
      by_cases hp : env.perform_ok = true
      · by_cases hlt : (perform_state env s).running_handles < s.running_handles
        · rw [update_eq_drain env s hp hlt]
          simp only
          rw [(drain_core _ _).2.1]
          simp [perform_state]
        · rw [update_eq_noop env s hp hlt]
          simp [perform_state]
      · rw [update_eq_err env s (by simpa using hp)]
        simp [perform_state]
    | add env line =>
      show 0 ≤ ((add_line env line s).1).running_handles
      rw [add_line]
      split
      · by_cases he : env.einit_ok = true
        · by_cases ha : env.add_ok = true
          · rw [write_metrics_ok env _ he ha]
            simp only
            omega
          · rw [write_metrics_reject env _ he (by simpa using ha)]
            simp only
            omega
        · rw [write_metrics_no_handle env _ (by simpa using he)]
          exact ih
      · exact ih
    | clear =>
      exact ih

theorem no_failures_when_capture_off :
    ∀ (s : ClientState), Reachable s → s.save_failures = false → s.failed_transfers = [] := by
  intro s h
  induction h with
  | init p n b => intro _; rfl
  | step s op hs ih =>
    intro hoff
    have hsave : s.save_failures = false := by rw [← step_keeps_save op s]; exact hoff
    have hprev : s.failed_transfers = [] := ih hsave
    cases op with
    | submit env =>
      show ((write_metrics env s).1).failed_transfers = []
      rw [(write_metrics_keeps_failures env s).1, hprev]
    | poll env =>
      show ((update env s).1).failed_transfers = []
      obtain ⟨t, ht, hoff2⟩ := update_extends_failures env s
      rw [ht, hprev, hoff2 hsave]
      rfl
    | add env line =>
      show ((add_line env line s).1).failed_transfers = []
      rw [(add_line_keeps_failures env line s).1, hprev]
    | clear =>
      rfl

/-! Concrete inputs used by the claim witnesses. -/

/-- A submit environment in which `curl_easy_init` and
`curl_multi_add_handle` both succeed. -/
def env_ok : SubmitEnv :=
  { einit_ok := true, add_ok := true, add_err := "" }

/-- A submit environment in which `curl_easy_init` returns `nullptr`. -/
def env_no_handle : SubmitEnv :=
  { einit_ok := false, add_ok := true, add_err := "" }

/-- A submit environment in which `curl_multi_add_handle` rejects the
registration. -/
def env_reject : SubmitEnv :=
  { einit_ok := true, add_ok := false, add_err := "Please call curl_multi_perform() soon" }

/-- The metric of spec section 8: measurement `m`, no tags, one field
`count=1`, fixed creation instant 0. -/
def sample_metric : Metric :=
  Metric.add_field (mk_metric "m" 0) "count" "1"

/-- A client whose flush threshold of 1 byte is crossed by any append. -/
def c5_s0 : ClientState := init_client Precision.nano 1 false

/-- The state in which the threshold-crossing append of `sample_metric`
to `c5_s0` returns. -/
def c5_after : ClientState :=
  ((add_metric env_ok sample_metric c5_s0).getD (c5_s0, none)).1

/-- A client with two registered in-flight requests. -/
def c2_state : ClientState :=
  { init_client Precision.nano 2048 false with active := [0, 1], running_handles := 2 }

/-- A poll environment in which both in-flight requests of `c2_state`
finish, the first with a failure. -/
def c2_env : PollEnv :=
  { perform_ok := true, perform_err := ""
    completions := [(0, false, "Failed to connect to host"), (1, true, "")] }

/-- The state in which the poll of `c2_state` under `c2_env` returns. -/
def c2_after : ClientState := (update c2_env c2_state).1

/-- A failure-capturing client with one registered in-flight request. -/
def c8_state : ClientState :=
  { init_client Precision.nano 2048 true with active := [0], running_handles := 1 }

/-- A poll environment in which the in-flight request of `c8_state`
finishes with a failure. -/
def c8_env : PollEnv :=
  { perform_ok := true, perform_err := ""
    completions := [(0, false, "Timeout was reached")] }

/-- The state in which the poll of `c8_state` under `c8_env` returns. -/
def c8_after : ClientState := (update c8_env c8_state).1

/-! The claims. -/

/-- C1: for every metric with a non-empty field sequence, `get_line` at
any precision produces exactly one line of the spec's form — the
measurement name, each tag in insertion order preceded by a comma, a
single space, the fields in insertion order separated by commas with no
trailing comma, a single space, the timestamp, a newline. -/
theorem c1_line_format (m : Metric) (p : Precision) (h : m.fields ≠ []) :
    m.get_line p = some (line_spec m p) := by
  cases hf : m.fields with
  | nil => exact absurd hf h
  | cons f rest =>
    simp only [Metric.get_line, line_spec, hf, sep_join_eq]
    simp [String.append_assoc]

/-- Witness for C1 at the spec's own example: measurement `m`, no tags,
one field `count=1`, creation instant 0, millisecond precision. -/
theorem c1_line_format_witness :
    sample_metric.fields ≠ [] ∧
    sample_metric.get_line Precision.milli = some (line_spec sample_metric Precision.milli) ∧
    line_spec sample_metric Precision.milli = "m count=1 0\n" :=
  ⟨by decide, c1_line_format sample_metric Precision.milli (by decide), by decide⟩

/-- C2: every poll call that returns normally and in which the
active-request count decreased removes every finished request present in
the completion queue at that instant, not just one: the queue is empty
afterwards and each of the N queued requests has been removed from the
multiplexer and had its per-request resources released. -/
theorem c2_poll_full_drain (env : PollEnv) (s s2 : ClientState)
    (h : update env s = (s2, none))
    (hdec : s2.running_handles < s.running_handles) :
    s2.done_queue = [] ∧
    s2.released = s.released ++ (s.done_queue ++ stepCompletions env s).map DoneMsg.handle := by
  by_cases hp : env.perform_ok = true
  · by_cases hlt : (perform_state env s).running_handles < s.running_handles
    · rw [update_eq_drain env s hp hlt] at h
      have hs2 : s2 = drain (perform_state env s).done_queue
          { perform_state env s with done_queue := [] } := by
        have := congrArg Prod.fst h
        simpa using this.symm
      subst hs2
      constructor
      · rw [(drain_core _ _).1]
      · rw [drain_released]
        simp [perform_state]
    · rw [update_eq_noop env s hp hlt] at h
      have hs2 : s2 = perform_state env s := by
        have := congrArg Prod.fst h
        simpa using this.symm
      rw [hs2] at hdec
      exact absurd hdec hlt
  · rw [update_eq_err env s (by simpa using hp)] at h
    have := congrArg Prod.snd h
    simp at this

/-- Witness for C2: two in-flight requests finish between polls; the one
poll that observes the drop drains both. -/
theorem c2_poll_full_drain_witness :
    c2_after.running_handles < c2_state.running_handles ∧
    (c2_after.done_queue = [] ∧
     c2_after.released = c2_state.released ++
       (c2_state.done_queue ++ stepCompletions c2_env c2_state).map DoneMsg.handle) :=
  ⟨by decide, c2_poll_full_drain c2_env c2_state c2_after (by decide) (by decide)⟩

/-- C3: the claim says encoding a metric with an empty field sequence
fails with a hard, synchronous encoding error.  The code does not: it
dereferences `fields.begin()` of the empty vector — a read past the end,
undefined behaviour, modelled here as `none` — and raises nothing.  This
theorem evaluates the embedded code at the failing input (a metric with
no fields): the result is the undefined-behaviour marker, not an error
surfaced to the caller. -/
theorem c3_encode_empty_fields_is_unchecked :
    Metric.get_line (mk_metric "m" 0) Precision.nano = none :=
  rfl

/-- C4: the claim says flushing with an empty pending buffer is a no-op.
The code is not: `write_metrics` on a fresh client (whose buffer is the
empty string) creates a request, submits the zero-length body to the
multiplexer and increments the active-request count.  This theorem
evaluates the embedded code at the failing input. -/
theorem c4_empty_flush_submits :
    (init_client Precision.nano 2048 false).post_data = "" ∧
    (write_metrics env_ok (init_client Precision.nano 2048 false)).2 = none ∧
    ((write_metrics env_ok (init_client Precision.nano 2048 false)).1).submitted = [""] ∧
    ((write_metrics env_ok (init_client Precision.nano 2048 false)).1).running_handles = 1 := by
  refine ⟨rfl, rfl, rfl, rfl⟩

/-- C5: after every append of an encoded line that returns normally, if
the buffer's byte length reached the configured threshold then exactly
one flush ran synchronously before the append returned (exactly one new
request body, the whole buffer, was submitted) and the pending buffer is
empty; if the length stayed below the threshold, no flush occurred. -/
theorem c5_autoflush_at_threshold (env : SubmitEnv) (m : Metric) (s s2 : ClientState)
    (line : String)
    (hline : m.get_line s.ts_precision = some line)
    (h : add_metric env m s = some (s2, none)) :
    (s.max_buffer ≤ (s.post_data ++ line).utf8ByteSize →
       s2.post_data = "" ∧ s2.submitted = s.submitted ++ [s.post_data ++ line]) ∧
    ((s.post_data ++ line).utf8ByteSize < s.max_buffer →
       s2.post_data = s.post_data ++ line ∧ s2.submitted = s.submitted) := by
  rw [add_metric, hline] at h
  simp only [Option.map_some', Option.some.injEq] at h
  rw [add_line] at h
  by_cases hth : s.max_buffer ≤ (s.post_data ++ line).utf8ByteSize
  · have hth2 : ({ s with post_data := s.post_data ++ line } : ClientState).max_buffer ≤
        ({ s with post_data := s.post_data ++ line } : ClientState).post_data.utf8ByteSize := hth
    rw [if_pos hth2] at h
    by_cases he : env.einit_ok = true
    · by_cases ha : env.add_ok = true
      · rw [write_metrics_ok env _ he ha] at h
        have hs2 := congrArg Prod.fst h
        simp only at hs2
        constructor
        · intro hcond
          rw [← hs2]
          exact ⟨rfl, rfl⟩
        · intro hcond
          omega
      · rw [write_metrics_reject env _ he (by simpa using ha)] at h
        have := congrArg Prod.snd h
        simp at this
    · rw [write_metrics_no_handle env _ (by simpa using he)] at h
      have := congrArg Prod.snd h
      simp at this
  · have hth2 : ¬ ({ s with post_data := s.post_data ++ line } : ClientState).max_buffer ≤
        ({ s with post_data := s.post_data ++ line } : ClientState).post_data.utf8ByteSize := hth
    rw [if_neg hth2] at h
    have hs2 := congrArg Prod.fst h
    simp only at hs2
    constructor
    · intro hcond
      omega
    · intro hcond
      rw [← hs2]
      exact ⟨rfl, rfl⟩

/-- Witness for C5: appending `m count=1 0\n` to a client with threshold
1 crosses the threshold; the triggering append returns with an empty
buffer and exactly one submitted body. -/
theorem c5_autoflush_at_threshold_witness :
    c5_s0.max_buffer ≤ (c5_s0.post_data ++ "m count=1 0\n").utf8ByteSize ∧
    (c5_after.post_data = "" ∧
     c5_after.submitted = c5_s0.submitted ++ [c5_s0.post_data ++ "m count=1 0\n"]) :=
  ⟨by decide,
   (c5_autoflush_at_threshold env_ok sample_metric c5_s0 c5_after "m count=1 0\n"
     (by decide) (by decide)).1 (by decide)⟩

/-- C6: over every sequence of public calls from a fresh client the
active-request count never becomes negative; `is_active` is true exactly
when the count is positive; and a submit with a live easy handle
increments the counter immediately — whether or not registration with
the multiplexer then succeeds, before any network progress. -/
theorem c6_active_count_invariant :
    (∀ s : ClientState, Reachable s → 0 ≤ s.running_handles) ∧
    (∀ s : ClientState, is_active s = true ↔ 0 < s.running_handles) ∧
    (∀ (env : SubmitEnv) (s : ClientState), env.einit_ok = true →
       ((write_metrics env s).1).running_handles = s.running_handles + 1) := by
  refine ⟨nonneg_of_reachable, ?_, ?_⟩
  · intro s
    simp [is_active]
  · intro env s he
    by_cases ha : env.add_ok = true
    · rw [write_metrics_ok env s he ha]
    · rw [write_metrics_reject env s he (by simpa using ha)]

/-- Witness for C6 at the freshly constructed client. -/
theorem c6_active_count_invariant_witness :
    0 ≤ (init_client Precision.nano 2048 false).running_handles ∧
    (is_active (init_client Precision.nano 2048 false) = true ↔
       0 < (init_client Precision.nano 2048 false).running_handles) ∧
    ((write_metrics env_ok (init_client Precision.nano 2048 false)).1).running_handles
       = (init_client Precision.nano 2048 false).running_handles + 1 :=
  ⟨c6_active_count_invariant.1 _ (Reachable.init Precision.nano 2048 false),
   c6_active_count_invariant.2.1 _,
   c6_active_count_invariant.2.2 env_ok _ rfl⟩

/-- C7: the string overload of `add_field` renders the value wrapped in
double quotes with each embedded double-quote escaped by a prefixed
backslash, and escapes nothing else: the escaping function is a
homomorphism for concatenation, maps the quote character (code 34) to
backslash-quote, leaves every other character — including backslash and
newline — unchanged, and on the spec's example `He said "hi"` the stored
field is `field="He said \"hi\""`. -/
theorem c7_string_field_escaping :
    (∀ (m : Metric) (key val : String),
       (Metric.add_field_str m key val).fields
         = m.fields ++ [key ++ "=\"" ++ escapeQuotes val ++ "\""]) ∧
    (∀ (s t : String), escapeQuotes (s ++ t) = escapeQuotes s ++ escapeQuotes t) ∧
    (∀ c : Char, c ≠ Char.ofNat 34 → escapeQuotes (String.mk [c]) = String.mk [c]) ∧
    escapeQuotes (String.mk [Char.ofNat 34]) = String.mk [Char.ofNat 92, Char.ofNat 34] ∧
    escapeQuotes "\\" = "\\" ∧
    escapeQuotes "\n" = "\n" ∧
    (Metric.add_field_str (mk_metric "m" 0) "field" "He said \"hi\"").fields
      = ["field=\"He said \\\"hi\\\"\""] := by
  refine ⟨fun m key val => rfl, ?_, ?_, by decide, by decide, by decide, by decide⟩
  · intro s t
    simp only [escapeQuotes, String.data_append, List.flatMap_append]
    rfl
  · intro c h
    simp [escapeQuotes, h]

/-- Witness for C7: the letter `a` (code 97) is not a quote and passes
through the escaping unchanged. -/
theorem c7_string_field_escaping_witness :
    Char.ofNat 97 ≠ Char.ofNat 34 ∧
    escapeQuotes (String.mk [Char.ofNat 97]) = String.mk [Char.ofNat 97] :=
  ⟨by decide, c7_string_field_escaping.2.2.1 (Char.ofNat 97) (by decide)⟩

/-- C8: with failure capture off, no failure ever appears through the
accessor in any reachable state; with capture on, a draining poll
appends exactly one entry per failed completed request it observes;
submit and append never touch the failure list and poll only extends it
(failures never self-clear); and `clear_failures` empties the list
without changing the active-request count. -/
theorem c8_failure_capture :
    (∀ s : ClientState, Reachable s → s.save_failures = false → get_failures s = []) ∧
    (∀ (env : PollEnv) (s s2 : ClientState),
       update env s = (s2, none) → s2.running_handles < s.running_handles →
       s.save_failures = true →
       get_failures s2 = get_failures s ++
         ((s.done_queue ++ stepCompletions env s).filter fun m => !m.ok).map DoneMsg.errmsg) ∧
    (∀ (env : SubmitEnv) (s : ClientState),
       get_failures (write_metrics env s).1 = get_failures s) ∧
    (∀ (env : PollEnv) (s : ClientState),
       ∃ t, get_failures (update env s).1 = get_failures s ++ t) ∧
    (∀ (env : SubmitEnv) (line : String) (s : ClientState),
       get_failures (add_line env line s).1 = get_failures s) ∧
    (∀ s : ClientState,
       get_failures (clear_failures s) = [] ∧
       (clear_failures s).running_handles = s.running_handles) := by
  refine ⟨no_failures_when_capture_off, ?_, ?_, ?_, ?_, fun s => ⟨rfl, rfl⟩⟩
  · intro env s s2 h hdec hsave
    by_cases hp : env.perform_ok = true
    · by_cases hlt : (perform_state env s).running_handles < s.running_handles
      · rw [update_eq_drain env s hp hlt] at h
        have hs2 : s2 = drain (perform_state env s).done_queue
            { perform_state env s with done_queue := [] } := by
          have := congrArg Prod.fst h
          simpa using this.symm
        subst hs2
        show (drain _ _).failed_transfers = _
        rw [drain_failed]
        simp [get_failures, perform_state, hsave]
      · rw [update_eq_noop env s hp hlt] at h
        have hs2 : s2 = perform_state env s := by
          have := congrArg Prod.fst h
          simpa using this.symm
        rw [hs2] at hdec
        exact absurd hdec hlt
    · rw [update_eq_err env s (by simpa using hp)] at h
      have := congrArg Prod.snd h
      simp at this
  · intro env s
    exact (write_metrics_keeps_failures env s).1
  · intro env s
    obtain ⟨t, ht, _⟩ := update_extends_failures env s
    exact ⟨t, ht⟩
  · intro env line s
    exact (add_line_keeps_failures env line s).1

/-- Witness for C8: a fresh capture-off client has no failures, and a
draining poll of a capture-on client with one failed completion appends
exactly that failure's description. -/
theorem c8_failure_capture_witness :
    get_failures (init_client Precision.nano 2048 false) = [] ∧
    get_failures c8_after = get_failures c8_state ++
      ((c8_state.done_queue ++ stepCompletions c8_env c8_state).filter fun m => !m.ok).map
        DoneMsg.errmsg :=
  ⟨c8_failure_capture.1 _ (Reachable.init Precision.nano 2048 false) rfl,
   c8_failure_capture.2.1 c8_env c8_state c8_after (by decide) (by decide) rfl⟩

/-- C9: when flush fails, the pending buffer is left unchanged so a
later flush can resubmit the buffered lines: on easy-handle creation
failure the whole state is untouched, and on registration rejection the
error carries the transport's text, the buffer and the registered set
are unchanged, but the active-request counter was already incremented,
so `is_active` reports true although nothing was registered. -/
theorem c9_submit_failure_keeps_buffer :
    (∀ (env : SubmitEnv) (s : ClientState), env.einit_ok = false →
       write_metrics env s = (s, some "Failed to initialize curl easy handle")) ∧
    (∀ (env : SubmitEnv) (s : ClientState), env.einit_ok = true → env.add_ok = false →
       (write_metrics env s).2 = some env.add_err ∧
       ((write_metrics env s).1).post_data = s.post_data ∧
       ((write_metrics env s).1).running_handles = s.running_handles + 1 ∧
       ((write_metrics env s).1).active = s.active ∧
       (0 ≤ s.running_handles → is_active (write_metrics env s).1 = true)) := by
  refine ⟨fun env s he => write_metrics_no_handle env s he, ?_⟩
  intro env s he ha
  rw [write_metrics_reject env s he ha]
  refine ⟨rfl, rfl, rfl, rfl, ?_⟩
  intro hn
  simp only [is_active]
  simp only [decide_eq_true_eq]
  omega

/-- Witness for C9 at a fresh client, under each of the two failing
environments. -/
theorem c9_submit_failure_keeps_buffer_witness :
    write_metrics env_no_handle (init_client Precision.nano 2048 false)
      = (init_client Precision.nano 2048 false, some "Failed to initialize curl easy handle") ∧
    ((write_metrics env_reject (init_client Precision.nano 2048 false)).1).post_data
      = (init_client Precision.nano 2048 false).post_data ∧
    is_active (write_metrics env_reject (init_client Precision.nano 2048 false)).1 = true :=
  ⟨c9_submit_failure_keeps_buffer.1 env_no_handle _ rfl,
   (c9_submit_failure_keeps_buffer.2 env_reject _ rfl rfl).2.1,
   (c9_submit_failure_keeps_buffer.2 env_reject _ rfl rfl).2.2.2.2 (by decide)⟩

/-- C10: line encoding is deterministic in the metric's state: the body
of `get_line` never samples the ambient clock, so two encodings of the
same unmodified metric at the same precision agree for any two clock
readings, coincide with the clock-free translation, and the timestamp a
metric carries is exactly the instant captured at construction. -/
theorem c10_encode_deterministic :
    (∀ (c1 c2 : Nat) (m : Metric) (p : Precision),
       Metric.get_line_clocked c1 m p = Metric.get_line_clocked c2 m p) ∧
    (∀ (c : Nat) (m : Metric) (p : Precision),
       Metric.get_line_clocked c m p = m.get_line p) ∧
    (∀ (meas : String) (now : Nat), (mk_metric meas now).timestamp = now) :=
  ⟨fun _ _ _ _ => rfl, fun _ _ _ => rfl, fun _ _ => rfl⟩

end Influxdb
